import Mathlib

/-!
Verification of the fictitious-metric model from the hyperparameter-tuning
notebooks.  The univariate metric formulas are embedded from the code cells of
Fictitious_Model_for_Hyperparameter_Tuning.ipynb, the multivariate composition
from its closed-form definitions, and the grid search space from
HyperDrive_MultiStep_Training_Pipeline.ipynb.  Machine floats are modelled as
exact reals.
-/

namespace Fictitious

/-- Precision versus threshold, from the notebook cell
precision = 0.1 + 0.9 / (1 + 5000 * np.exp(-20 * thr)). -/
noncomputable def precision_of_threshold (thr : ℝ) : ℝ :=
  0.1 + 0.9 / (1 + 5000 * Real.exp (-20 * thr))

/-- Recall versus threshold, from the notebook cell
recall = 1 / (1 + 1e-5 * np.exp(20 * thr)). -/
noncomputable def recall_of_threshold (thr : ℝ) : ℝ :=
  1 / (1 + 1e-5 * Real.exp (20 * thr))

/-- Training loss versus epoch count, from the notebook cell
loss = 3 + 7 * np.exp(-0.05 * epoch). -/
noncomputable def loss_of_epoch (epoch : ℝ) : ℝ :=
  3 + 7 * Real.exp (-0.05 * epoch)

/-- Model accuracy versus epoch count, from the notebook cell
accuracy = 0.95 - 3 * (np.log10(3 - 0.025 * epoch)) ** 2. -/
noncomputable def accuracy_of_epoch (epoch : ℝ) : ℝ :=
  0.95 - 3 * (Real.logb 10 (3 - 0.025 * epoch)) ^ 2

/-- Training loss versus learning rate, from the notebook cell
z = np.log10(lr); loss = 0.6 + (np.log10(0.9 - z)) ** 2. -/
noncomputable def loss_of_lr (lr : ℝ) : ℝ :=
  0.6 + (Real.logb 10 (0.9 - Real.logb 10 lr)) ^ 2

/-- Model accuracy versus learning rate, from the notebook cell
accuracy = 0.98 - (np.log10(0.7 - 0.5 * z)) ** 2 with z = np.log10(lr). -/
noncomputable def accuracy_of_lr (lr : ℝ) : ℝ :=
  0.98 - (Real.logb 10 (0.7 - 0.5 * Real.logb 10 lr)) ^ 2

/-- Closed form stated by the spec for precision versus threshold. -/
noncomputable def spec_precision_of_threshold (thr : ℝ) : ℝ :=
  0.1 + 0.9 / (1 + 5000 * Real.exp (-20 * thr))

/-- Closed form stated by the spec for recall versus threshold. -/
noncomputable def spec_recall_of_threshold (thr : ℝ) : ℝ :=
  1 / (1 + 1e-5 * Real.exp (20 * thr))

/-- Closed form stated by the spec for loss versus epoch count. -/
noncomputable def spec_loss_of_epoch (epoch : ℝ) : ℝ :=
  3 + 7 * Real.exp (-0.05 * epoch)

/-- Closed form stated by the spec for accuracy versus epoch count. -/
noncomputable def spec_accuracy_of_epoch (epoch : ℝ) : ℝ :=
  0.95 - 3 * (Real.logb 10 (3 - 0.025 * epoch)) ^ 2

/-- Closed form stated by the spec for loss versus learning rate. -/
noncomputable def spec_loss_of_lr (lr : ℝ) : ℝ :=
  0.6 + (Real.logb 10 (0.9 - Real.logb 10 lr)) ^ 2

/-- Closed form stated by the spec for accuracy versus learning rate. -/
noncomputable def spec_accuracy_of_lr (lr : ℝ) : ℝ :=
  0.98 - (Real.logb 10 (0.7 - 0.5 * Real.logb 10 lr)) ^ 2

/-- Immutable tuning-parameter triple fed to one evaluation. -/
structure TuningParameters where
  thr : ℝ
  epoch : ℝ
  lr : ℝ

/-- Constant scalar factors of the multivariate composition. -/
structure MetricWeights where
  k_accuracy : ℝ
  k_precision : ℝ
  k_recall : ℝ
  k_loss : ℝ

/-- Default weighting constants: the notebook states default values of 1. -/
def defaultWeights : MetricWeights := ⟨1, 1, 1, 1⟩

/-- All five real-valued outputs of one evaluation.  The recall field carries a
prime because the bare name is reserved by a Mathlib command. -/
structure MetricResult where
  precision : ℝ
  recall' : ℝ
  loss : ℝ
  accuracy : ℝ
  f1 : ℝ

/-- Multivariate accuracy, from the notebook closed form
Accuracy(epoch, lr) = kA x Accuracy(epoch) x Accuracy(lr). -/
noncomputable def accuracy_of_epoch_lr (kA epoch lr : ℝ) : ℝ :=
  kA * accuracy_of_epoch epoch * accuracy_of_lr lr

/-- Multivariate precision, from the notebook closed form
Precision(thr, epoch, lr) = kP x Precision(thr) x Accuracy(epoch, lr). -/
noncomputable def precision_of_thr_epoch_lr (kP kA thr epoch lr : ℝ) : ℝ :=
  kP * precision_of_threshold thr * accuracy_of_epoch_lr kA epoch lr

/-- Multivariate recall, from the notebook closed form
Recall(thr, epoch, lr) = kR x Recall(thr) x Accuracy(epoch, lr). -/
noncomputable def recall_of_thr_epoch_lr (kR kA thr epoch lr : ℝ) : ℝ :=
  kR * recall_of_threshold thr * accuracy_of_epoch_lr kA epoch lr

/-- Multivariate loss, from the notebook closed form
Loss(epoch, lr) = kL x Loss(epoch) x Loss(lr). -/
noncomputable def loss_of_epoch_lr (kL epoch lr : ℝ) : ℝ :=
  kL * loss_of_epoch epoch * loss_of_lr lr

/-- Balanced F-score, from the notebook closed form
F1 = 2 x (Precision x Recall) / (Precision + Recall). -/
noncomputable def f1_score (p r : ℝ) : ℝ :=
  2 * (p * r) / (p + r)

/-- One full evaluation of the fictitious model: maps the tuning parameters and
weights to the five metrics. -/
noncomputable def evaluate (p : TuningParameters) (w : MetricWeights) : MetricResult :=
  ⟨precision_of_thr_epoch_lr w.k_precision w.k_accuracy p.thr p.epoch p.lr,
   recall_of_thr_epoch_lr w.k_recall w.k_accuracy p.thr p.epoch p.lr,
   loss_of_epoch_lr w.k_loss p.epoch p.lr,
   accuracy_of_epoch_lr w.k_accuracy p.epoch p.lr,
   f1_score (precision_of_thr_epoch_lr w.k_precision w.k_accuracy p.thr p.epoch p.lr)
     (recall_of_thr_epoch_lr w.k_recall w.k_accuracy p.thr p.epoch p.lr)⟩

/-- Modelled from the spec: the error taxonomy of the evaluator.  The source
notebooks leave the domain boundaries unchecked, so the DomainError reporting
required by the spec (section 7) is missing from the source; following the
spec, an error names the offending function and carries the offending input. -/
inductive DomainError where
  | logNonpos (fn : String) (input : ℝ)
  | divByZero (fn : String) (p r : ℝ)

/-- Modelled from the spec: precision versus threshold never takes a logarithm,
so it succeeds on every input. -/
noncomputable def checked_precision_of_threshold (thr : ℝ) : Except DomainError ℝ :=
  .ok (precision_of_threshold thr)

/-- Modelled from the spec: recall versus threshold never takes a logarithm,
so it succeeds on every input. -/
noncomputable def checked_recall_of_threshold (thr : ℝ) : Except DomainError ℝ :=
  .ok (recall_of_threshold thr)

/-- Modelled from the spec: loss versus epoch never takes a logarithm, so it
succeeds on every input. -/
noncomputable def checked_loss_of_epoch (epoch : ℝ) : Except DomainError ℝ :=
  .ok (loss_of_epoch epoch)

/-- Modelled from the spec: accuracy versus epoch reports a DomainError when
the log10 argument 3 - 0.025 * epoch is not positive. -/
noncomputable def checked_accuracy_of_epoch (epoch : ℝ) : Except DomainError ℝ :=
  if 0 < 3 - 0.025 * epoch then .ok (accuracy_of_epoch epoch)
  else .error (.logNonpos "accuracy_of_epoch" epoch)

/-- Modelled from the spec: loss versus learning rate reports a DomainError
when either log10 argument (lr itself, or 0.9 - log10 lr) is not positive. -/
noncomputable def checked_loss_of_lr (lr : ℝ) : Except DomainError ℝ :=
  if 0 < lr ∧ 0 < 0.9 - Real.logb 10 lr then .ok (loss_of_lr lr)
  else .error (.logNonpos "loss_of_lr" lr)

/-- Modelled from the spec: accuracy versus learning rate reports a DomainError
when either log10 argument (lr itself, or 0.7 - 0.5 * log10 lr) is not
positive. -/
noncomputable def checked_accuracy_of_lr (lr : ℝ) : Except DomainError ℝ :=
  if 0 < lr ∧ 0 < 0.7 - 0.5 * Real.logb 10 lr then .ok (accuracy_of_lr lr)
  else .error (.logNonpos "accuracy_of_lr" lr)

/-- Modelled from the spec: the F-score reports a division-by-zero DomainError
exactly when the denominator precision + recall vanishes. -/
noncomputable def checked_f1 (p r : ℝ) : Except DomainError ℝ :=
  if p + r = 0 then .error (.divByZero "f1" p r)
  else .ok (f1_score p r)

/-- Modelled from the spec: one full evaluation with every domain check
performed, surfacing the first DomainError instead of a silent non-finite
result. -/
noncomputable def checkedEvaluate (p : TuningParameters) (w : MetricWeights) :
    Except DomainError MetricResult :=
  (checked_accuracy_of_epoch p.epoch).bind fun ae =>
  (checked_accuracy_of_lr p.lr).bind fun al =>
  (checked_loss_of_epoch p.epoch).bind fun le =>
  (checked_loss_of_lr p.lr).bind fun ll =>
  (checked_precision_of_threshold p.thr).bind fun pt =>
  (checked_recall_of_threshold p.thr).bind fun rt =>
  (checked_f1 (w.k_precision * pt * (w.k_accuracy * ae * al))
      (w.k_recall * rt * (w.k_accuracy * ae * al))).bind fun f =>
  .ok ⟨w.k_precision * pt * (w.k_accuracy * ae * al),
       w.k_recall * rt * (w.k_accuracy * ae * al),
       w.k_loss * le * ll,
       w.k_accuracy * ae * al,
       f⟩

/-- Threshold values of the grid search space configured in
HyperDrive_MultiStep_Training_Pipeline.ipynb: choice(0.05, 0.20). -/
noncomputable def thrGrid : List ℝ := [0.05, 0.20]

/-- Epoch values of the grid search space configured in
HyperDrive_MultiStep_Training_Pipeline.ipynb: choice(1, 20). -/
noncomputable def epochGrid : List ℝ := [1, 20]

/-- Learning-rate values of the grid search space configured in
HyperDrive_MultiStep_Training_Pipeline.ipynb: choice(0.0001, 0.001). -/
noncomputable def lrGrid : List ℝ := [0.0001, 0.001]

/-! Helper lemmas about base-10 logarithms of concrete values. -/

lemma log_ten_pos : 0 < Real.log 10 := Real.log_pos (by norm_num)

lemma logb_ten_zpow (n : ℤ) : Real.logb 10 ((10:ℝ) ^ n) = n := by
  rw [Real.logb, Real.log_zpow, mul_div_assoc, div_self (ne_of_gt log_ten_pos), mul_one]

lemma logb_ten_em4 : Real.logb 10 (0.0001:ℝ) = -4 := by
  have h : (0.0001:ℝ) = (10:ℝ) ^ (-4:ℤ) := by norm_num
  rw [h, logb_ten_zpow]
  norm_num

lemma logb_ten_em3 : Real.logb 10 (0.001:ℝ) = -3 := by
  have h : (0.001:ℝ) = (10:ℝ) ^ (-3:ℤ) := by norm_num
  rw [h, logb_ten_zpow]
  norm_num

/-- Claim C1: each univariate building block of the code equals the closed form
stated in the spec, on the domain stated in the spec. -/
theorem univariate_blocks_match_spec (thr epoch lr : ℝ)
    (hep : 0 < 3 - 0.025 * epoch) (hlr : 0 < lr)
    (hll : Real.logb 10 lr < 0.9) (hal : 0.5 * Real.logb 10 lr < 0.7) :
    precision_of_threshold thr = spec_precision_of_threshold thr ∧
    recall_of_threshold thr = spec_recall_of_threshold thr ∧
    loss_of_epoch epoch = spec_loss_of_epoch epoch ∧
    accuracy_of_epoch epoch = spec_accuracy_of_epoch epoch ∧
    loss_of_lr lr = spec_loss_of_lr lr ∧
    accuracy_of_lr lr = spec_accuracy_of_lr lr :=
  ⟨rfl, rfl, rfl, rfl, rfl, rfl⟩

/-- Witness for claim C1 at thr = 0.5, epoch = 20, lr = 0.001. -/
theorem univariate_blocks_match_spec_witness :
    precision_of_threshold 0.5 = spec_precision_of_threshold 0.5 ∧
    recall_of_threshold 0.5 = spec_recall_of_threshold 0.5 ∧
    loss_of_epoch 20 = spec_loss_of_epoch 20 ∧
    accuracy_of_epoch 20 = spec_accuracy_of_epoch 20 ∧
    loss_of_lr 0.001 = spec_loss_of_lr 0.001 ∧
    accuracy_of_lr 0.001 = spec_accuracy_of_lr 0.001 :=
  univariate_blocks_match_spec 0.5 20 0.001 (by norm_num) (by norm_num)
    (by rw [logb_ten_em3]; norm_num) (by rw [logb_ten_em3]; norm_num)

/-- Claim C2: the multivariate metrics computed by an evaluation are the
products of the univariate building blocks stated in the spec, weighted by the
scalar constants, whose defaults are all 1. -/
theorem multivariate_composition_matches_spec (w : MetricWeights) (thr epoch lr : ℝ)
    (hep : 0 < 3 - 0.025 * epoch) (hlr : 0 < lr)
    (hll : Real.logb 10 lr < 0.9) (hal : 0.5 * Real.logb 10 lr < 0.7) :
    (evaluate ⟨thr, epoch, lr⟩ w).accuracy
        = w.k_accuracy * spec_accuracy_of_epoch epoch * spec_accuracy_of_lr lr ∧
    (evaluate ⟨thr, epoch, lr⟩ w).precision
        = w.k_precision * spec_precision_of_threshold thr
            * (evaluate ⟨thr, epoch, lr⟩ w).accuracy ∧
    (evaluate ⟨thr, epoch, lr⟩ w).recall'
        = w.k_recall * spec_recall_of_threshold thr
            * (evaluate ⟨thr, epoch, lr⟩ w).accuracy ∧
    (evaluate ⟨thr, epoch, lr⟩ w).loss
        = w.k_loss * spec_loss_of_epoch epoch * spec_loss_of_lr lr ∧
    defaultWeights.k_accuracy = 1 ∧ defaultWeights.k_precision = 1 ∧
    defaultWeights.k_recall = 1 ∧ defaultWeights.k_loss = 1 :=
  ⟨rfl, rfl, rfl, rfl, rfl, rfl, rfl, rfl⟩

/-- Witness for claim C2 at default weights, thr = 0.5, epoch = 20,
lr = 0.001. -/
theorem multivariate_composition_matches_spec_witness :
    (evaluate ⟨0.5, 20, 0.001⟩ defaultWeights).accuracy
        = defaultWeights.k_accuracy * spec_accuracy_of_epoch 20
            * spec_accuracy_of_lr 0.001 ∧
    (evaluate ⟨0.5, 20, 0.001⟩ defaultWeights).precision
        = defaultWeights.k_precision * spec_precision_of_threshold 0.5
            * (evaluate ⟨0.5, 20, 0.001⟩ defaultWeights).accuracy ∧
    (evaluate ⟨0.5, 20, 0.001⟩ defaultWeights).recall'
        = defaultWeights.k_recall * spec_recall_of_threshold 0.5
            * (evaluate ⟨0.5, 20, 0.001⟩ defaultWeights).accuracy ∧
    (evaluate ⟨0.5, 20, 0.001⟩ defaultWeights).loss
        = defaultWeights.k_loss * spec_loss_of_epoch 20 * spec_loss_of_lr 0.001 ∧
    defaultWeights.k_accuracy = 1 ∧ defaultWeights.k_precision = 1 ∧
    defaultWeights.k_recall = 1 ∧ defaultWeights.k_loss = 1 :=
  multivariate_composition_matches_spec defaultWeights 0.5 20 0.001 (by norm_num)
    (by norm_num) (by rw [logb_ten_em3]; norm_num) (by rw [logb_ten_em3]; norm_num)

/-- Claim C9: evaluation is deterministic and stateless, a pure function of the
tuning parameters and the weights; identical inputs give identical results. -/
theorem evaluate_deterministic (p p' : TuningParameters) (w w' : MetricWeights)
    (hp : p = p') (hw : w = w') : evaluate p w = evaluate p' w' := by
  rw [hp, hw]

/-- Witness for claim C9 at concrete inputs. -/
theorem evaluate_deterministic_witness :
    evaluate ⟨0.5, 20, 0.001⟩ defaultWeights
      = evaluate ⟨0.5, 20, 0.001⟩ defaultWeights :=
  evaluate_deterministic ⟨0.5, 20, 0.001⟩ ⟨0.5, 20, 0.001⟩ defaultWeights
    defaultWeights rfl rfl

/-- Claim C3: every metric function either returns a real number (on the
documented domain of its logarithms) or reports a DomainError naming the
offending function and input; a domain violation never silently yields a
value. -/
theorem checked_functions_total_or_domain_error :
    (∀ thr : ℝ, checked_precision_of_threshold thr = .ok (precision_of_threshold thr)) ∧
    (∀ thr : ℝ, checked_recall_of_threshold thr = .ok (recall_of_threshold thr)) ∧
    (∀ epoch : ℝ, checked_loss_of_epoch epoch = .ok (loss_of_epoch epoch)) ∧
    (∀ epoch : ℝ,
      (0 < 3 - 0.025 * epoch →
        checked_accuracy_of_epoch epoch = .ok (accuracy_of_epoch epoch)) ∧
      (¬ 0 < 3 - 0.025 * epoch →
        checked_accuracy_of_epoch epoch = .error (.logNonpos "accuracy_of_epoch" epoch))) ∧
    (∀ lr : ℝ,
      (0 < lr ∧ Real.logb 10 lr < 0.9 →
        checked_loss_of_lr lr = .ok (loss_of_lr lr)) ∧
      (¬ (0 < lr ∧ Real.logb 10 lr < 0.9) →
        checked_loss_of_lr lr = .error (.logNonpos "loss_of_lr" lr))) ∧
    (∀ lr : ℝ,
      (0 < lr ∧ 0.5 * Real.logb 10 lr < 0.7 →
        checked_accuracy_of_lr lr = .ok (accuracy_of_lr lr)) ∧
      (¬ (0 < lr ∧ 0.5 * Real.logb 10 lr < 0.7) →
        checked_accuracy_of_lr lr = .error (.logNonpos "accuracy_of_lr" lr))) := by
  refine ⟨fun thr => rfl, fun thr => rfl, fun epoch => rfl,
    fun epoch => ⟨?_, ?_⟩, fun lr => ⟨?_, ?_⟩, fun lr => ⟨?_, ?_⟩⟩
  · intro h
    unfold checked_accuracy_of_epoch
    rw [if_pos h]
  · intro h
    unfold checked_accuracy_of_epoch
    rw [if_neg h]
  · rintro ⟨h1, h2⟩
    unfold checked_loss_of_lr
    rw [if_pos ⟨h1, by linarith⟩]
  · intro h
    unfold checked_loss_of_lr
    rw [if_neg]
    rintro ⟨h1, h2⟩
    exact h ⟨h1, by linarith⟩
  · rintro ⟨h1, h2⟩
    unfold checked_accuracy_of_lr
    rw [if_pos ⟨h1, by linarith⟩]
  · intro h
    unfold checked_accuracy_of_lr
    rw [if_neg]
    rintro ⟨h1, h2⟩
    exact h ⟨h1, by linarith⟩

/-- Witness for claim C3: a success inside the domain and a reported
DomainError outside it. -/
theorem checked_functions_total_or_domain_error_witness :
    checked_accuracy_of_epoch 130 = .error (.logNonpos "accuracy_of_epoch" 130) ∧
    checked_loss_of_lr 0.001 = .ok (loss_of_lr 0.001) :=
  ⟨(checked_functions_total_or_domain_error.2.2.2.1 130).2 (by norm_num),
   (checked_functions_total_or_domain_error.2.2.2.2.1 0.001).1
     ⟨by norm_num, by rw [logb_ten_em3]; norm_num⟩⟩

/-- Claim C4: the F-score satisfies f1(p, p) = p for every p > 0, is defined
for every pair with nonzero sum, and reports a division-by-zero DomainError
exactly when p + r = 0. -/
theorem f1_identity_and_domain :
    (∀ p : ℝ, 0 < p → checked_f1 p p = .ok p) ∧
    (∀ p r : ℝ, p + r ≠ 0 → checked_f1 p r = .ok (f1_score p r)) ∧
    (∀ p r : ℝ, p + r = 0 → checked_f1 p r = .error (.divByZero "f1" p r)) := by
  refine ⟨?_, ?_, ?_⟩
  · intro p hp
    have hne : p + p ≠ 0 := by positivity
    unfold checked_f1
    rw [if_neg hne]
    have : f1_score p p = p := by
      unfold f1_score
      rw [div_eq_iff hne]
      ring
    rw [this]
  · intro p r h
    unfold checked_f1
    rw [if_neg h]
  · intro p r h
    unfold checked_f1
    rw [if_pos h]

/-- Witness for claim C4 at p = 1, r = 2 and at the singular pair (1, -1). -/
theorem f1_identity_and_domain_witness :
    checked_f1 1 1 = .ok 1 ∧
    checked_f1 1 2 = .ok (f1_score 1 2) ∧
    checked_f1 1 (-1) = .error (.divByZero "f1" 1 (-1)) :=
  ⟨f1_identity_and_domain.1 1 (by norm_num),
   f1_identity_and_domain.2.1 1 2 (by norm_num),
   f1_identity_and_domain.2.2 1 (-1) (by norm_num)⟩

/-- Claim C5: loss versus learning rate reports a DomainError at and above the
boundary lr = 10 ^ 0.9, and succeeds with a real value strictly below it. -/
theorem loss_of_lr_boundary :
    (∀ lr : ℝ, (10:ℝ) ^ (0.9:ℝ) ≤ lr →
      checked_loss_of_lr lr = .error (.logNonpos "loss_of_lr" lr)) ∧
    (∀ lr : ℝ, 0 < lr → lr < (10:ℝ) ^ (0.9:ℝ) →
      checked_loss_of_lr lr = .ok (loss_of_lr lr)) := by
  have h10 : (0:ℝ) < 10 := by norm_num
  have h10' : (10:ℝ) ≠ 1 := by norm_num
  have hb : Real.logb 10 ((10:ℝ) ^ (0.9:ℝ)) = 0.9 := Real.logb_rpow h10 h10'
  have hrp : (0:ℝ) < (10:ℝ) ^ (0.9:ℝ) := Real.rpow_pos_of_pos h10 _
  constructor
  · intro lr hlr
    have hpos : 0 < lr := lt_of_lt_of_le hrp hlr
    have hle : (0.9:ℝ) ≤ Real.logb 10 lr := by
      rw [← hb]
      exact (Real.logb_le_logb (by norm_num) hrp hpos).mpr hlr
    unfold checked_loss_of_lr
    rw [if_neg]
    rintro ⟨h1, h2⟩
    linarith
  · intro lr h0 hlr
    have hlt : Real.logb 10 lr < 0.9 := by
      rw [← hb]
      exact Real.logb_lt_logb (by norm_num) h0 hlr
    unfold checked_loss_of_lr
    rw [if_pos ⟨h0, by linarith⟩]

/-- Witness for claim C5: the boundary value itself errors and lr = 1
succeeds. -/
theorem loss_of_lr_boundary_witness :
    checked_loss_of_lr ((10:ℝ) ^ (0.9:ℝ))
      = .error (.logNonpos "loss_of_lr" ((10:ℝ) ^ (0.9:ℝ))) ∧
    checked_loss_of_lr 1 = .ok (loss_of_lr 1) :=
  ⟨loss_of_lr_boundary.1 _ le_rfl,
   loss_of_lr_boundary.2 1 one_pos (by
     have h : (10:ℝ) ^ (0:ℝ) < (10:ℝ) ^ (0.9:ℝ) := by
       apply (Real.rpow_lt_rpow_left_iff (by norm_num : (1:ℝ) < 10)).mpr
       norm_num
     rwa [Real.rpow_zero] at h)⟩

/-- Claim C6: on [0, 1] precision versus threshold is strictly increasing with
values in the open interval (0.1, 1), and recall versus threshold is strictly
decreasing with values in the open interval (0, 1). -/
theorem threshold_sigmoids_monotone_bounded :
    (∀ t1 t2 : ℝ, t1 ∈ Set.Icc (0:ℝ) 1 → t2 ∈ Set.Icc (0:ℝ) 1 → t1 < t2 →
      precision_of_threshold t1 < precision_of_threshold t2) ∧
    (∀ thr : ℝ, thr ∈ Set.Icc (0:ℝ) 1 →
      0.1 < precision_of_threshold thr ∧ precision_of_threshold thr < 1) ∧
    (∀ t1 t2 : ℝ, t1 ∈ Set.Icc (0:ℝ) 1 → t2 ∈ Set.Icc (0:ℝ) 1 → t1 < t2 →
      recall_of_threshold t2 < recall_of_threshold t1) ∧
    (∀ thr : ℝ, thr ∈ Set.Icc (0:ℝ) 1 →
      0 < recall_of_threshold thr ∧ recall_of_threshold thr < 1) := by
  refine ⟨?_, ?_, ?_, ?_⟩
  · intro t1 t2 _ _ h
    unfold precision_of_threshold
    have he : Real.exp (-20 * t2) < Real.exp (-20 * t1) :=
      Real.exp_lt_exp.mpr (by linarith)
    have h1 : (0:ℝ) < 1 + 5000 * Real.exp (-20 * t1) := by positivity
    have h2 : (0:ℝ) < 1 + 5000 * Real.exp (-20 * t2) := by positivity
    have hdiv : (0.9:ℝ) / (1 + 5000 * Real.exp (-20 * t1))
        < 0.9 / (1 + 5000 * Real.exp (-20 * t2)) :=
      (div_lt_div_iff_of_pos_left (by norm_num) h1 h2).mpr (by linarith)
    linarith
  · intro thr _
    unfold precision_of_threshold
    have hE : (0:ℝ) < Real.exp (-20 * thr) := Real.exp_pos _
    have hD : (0:ℝ) < 1 + 5000 * Real.exp (-20 * thr) := by positivity
    constructor
    · have hq : (0:ℝ) < 0.9 / (1 + 5000 * Real.exp (-20 * thr)) := by positivity
      linarith
    · have hq : (0.9:ℝ) / (1 + 5000 * Real.exp (-20 * thr)) < 0.9 := by
        rw [div_lt_iff₀ hD]
        nlinarith
      linarith
  · intro t1 t2 _ _ h
    unfold recall_of_threshold
    have he : Real.exp (20 * t1) < Real.exp (20 * t2) :=
      Real.exp_lt_exp.mpr (by linarith)
    have h1 : (0:ℝ) < 1 + 1e-5 * Real.exp (20 * t1) := by positivity
    have h2 : (0:ℝ) < 1 + 1e-5 * Real.exp (20 * t2) := by positivity
    exact (div_lt_div_iff_of_pos_left one_pos h2 h1).mpr (by linarith)
  · intro thr _
    unfold recall_of_threshold
    have hE : (0:ℝ) < Real.exp (20 * thr) := Real.exp_pos _
    have hD : (0:ℝ) < 1 + 1e-5 * Real.exp (20 * thr) := by positivity
    constructor
    · positivity
    · rw [div_lt_one hD]
      linarith

/-- Witness for claim C6 at thresholds 0, 0.5 and 1. -/
theorem threshold_sigmoids_monotone_bounded_witness :
    precision_of_threshold 0 < precision_of_threshold 1 ∧
    (0.1 < precision_of_threshold 0.5 ∧ precision_of_threshold 0.5 < 1) ∧
    recall_of_threshold 1 < recall_of_threshold 0 ∧
    (0 < recall_of_threshold 0.5 ∧ recall_of_threshold 0.5 < 1) :=
  ⟨threshold_sigmoids_monotone_bounded.1 0 1 (Set.mem_Icc.mpr (by norm_num))
      (Set.mem_Icc.mpr (by norm_num)) (by norm_num),
   threshold_sigmoids_monotone_bounded.2.1 0.5 (Set.mem_Icc.mpr (by norm_num)),
   threshold_sigmoids_monotone_bounded.2.2.1 0 1 (Set.mem_Icc.mpr (by norm_num))
      (Set.mem_Icc.mpr (by norm_num)) (by norm_num),
   threshold_sigmoids_monotone_bounded.2.2.2 0.5 (Set.mem_Icc.mpr (by norm_num))⟩

/-- Claim C7: accuracy versus epoch attains a unique strict maximum on
[0, 119], located strictly inside the interval (at epoch 80), not at an
endpoint. -/
theorem accuracy_of_epoch_unique_interior_max :
    ∃! estar : ℝ, estar ∈ Set.Ioo (0:ℝ) 119 ∧
      ∀ e ∈ Set.Icc (0:ℝ) 119, e ≠ estar →
        accuracy_of_epoch e < accuracy_of_epoch estar := by
  have hacc80 : accuracy_of_epoch 80 = 0.95 := by
    unfold accuracy_of_epoch
    rw [show (3:ℝ) - 0.025 * 80 = 1 by norm_num, Real.logb_one]
    norm_num
  have hmax : ∀ e ∈ Set.Icc (0:ℝ) 119, e ≠ 80 →
      accuracy_of_epoch e < accuracy_of_epoch 80 := by
    rintro e ⟨he0, he119⟩ hne
    rw [hacc80]
    unfold accuracy_of_epoch
    set x := 3 - 0.025 * e with hx
    have hxpos : 0 < x := by rw [hx]; linarith
    have hxne1 : x ≠ 1 := by
      rw [hx]
      intro h
      apply hne
      linarith
    have hlogne : Real.logb 10 x ≠ 0 := by
      unfold Real.logb
      apply div_ne_zero
      · rw [Real.log_ne_zero]
        exact ⟨ne_of_gt hxpos, hxne1, ne_of_gt (lt_trans (by norm_num) hxpos)⟩
      · exact ne_of_gt log_ten_pos
    have hsq : 0 < (Real.logb 10 x) ^ 2 :=
      lt_of_le_of_ne (sq_nonneg _) (Ne.symm (pow_ne_zero 2 hlogne))
    linarith
  refine ⟨80, ⟨⟨by norm_num, by norm_num⟩, hmax⟩, ?_⟩
  rintro y ⟨hy, hymax⟩
  by_contra hne
  have h1 := hymax 80 ⟨by norm_num, by norm_num⟩ (fun h => hne h.symm)
  have h2 := hmax y ⟨le_of_lt hy.1, le_of_lt hy.2⟩ hne
  linarith

/-- Claim C8: loss versus epoch starts at exactly 10, decreases strictly
monotonically, stays above its asymptote 3 and tends to 3 at infinity, and is
below 3.001 at epoch 200. -/
theorem loss_of_epoch_profile :
    loss_of_epoch 0 = 10 ∧
    (∀ e1 e2 : ℝ, e1 < e2 → loss_of_epoch e2 < loss_of_epoch e1) ∧
    (∀ e : ℝ, 3 < loss_of_epoch e) ∧
    Filter.Tendsto loss_of_epoch Filter.atTop (nhds 3) ∧
    loss_of_epoch 200 < 3.001 := by
  refine ⟨?_, ?_, ?_, ?_, ?_⟩
  · unfold loss_of_epoch
    rw [show (-0.05:ℝ) * 0 = 0 by ring, Real.exp_zero]
    norm_num
  · intro e1 e2 h
    unfold loss_of_epoch
    have he : Real.exp (-0.05 * e2) < Real.exp (-0.05 * e1) :=
      Real.exp_lt_exp.mpr (by linarith)
    linarith
  · intro e
    unfold loss_of_epoch
    have := Real.exp_pos (-0.05 * e)
    linarith
  · have h1 : Filter.Tendsto (fun e : ℝ => -0.05 * e) Filter.atTop Filter.atBot :=
      (Filter.tendsto_const_mul_atBot_of_neg (by norm_num)).mpr Filter.tendsto_id
    have h2 : Filter.Tendsto (fun e : ℝ => Real.exp (-0.05 * e))
        Filter.atTop (nhds 0) := Real.tendsto_exp_atBot.comp h1
    have h3 : Filter.Tendsto (fun e : ℝ => 3 + 7 * Real.exp (-0.05 * e))
        Filter.atTop (nhds (3 + 7 * 0)) := tendsto_const_nhds.add (h2.const_mul 7)
    rw [show (3:ℝ) + 7 * 0 = 3 by norm_num] at h3
    exact h3
  · have hexp : Real.exp 10 = Real.exp 1 ^ 10 := by
      rw [← Real.exp_nat_mul]
      norm_num
    have h7000 : (7000:ℝ) < Real.exp 10 := by
      rw [hexp]
      calc (7000:ℝ) < 2.7182818283 ^ 10 := by norm_num
        _ < Real.exp 1 ^ 10 := by
            apply pow_lt_pow_left₀ Real.exp_one_gt_d9 (by norm_num)
            norm_num
    have hmul : Real.exp (-10) * Real.exp 10 = 1 := by
      rw [← Real.exp_add]
      norm_num
    have hpos : (0:ℝ) < Real.exp (-10) := Real.exp_pos _
    unfold loss_of_epoch
    rw [show (-0.05:ℝ) * 200 = -10 by norm_num]
    nlinarith [mul_pos hpos (sub_pos.mpr h7000), hmul]

/-- Witness for claim C7: the maximizing epoch beats both endpoints of
[0, 119]. -/
theorem accuracy_of_epoch_unique_interior_max_witness :
    ∃ e : ℝ, e ∈ Set.Ioo (0:ℝ) 119 ∧
      accuracy_of_epoch 0 < accuracy_of_epoch e ∧
      accuracy_of_epoch 119 < accuracy_of_epoch e := by
  obtain ⟨e, ⟨hmem, hmax⟩, _⟩ := accuracy_of_epoch_unique_interior_max
  refine ⟨e, hmem, ?_, ?_⟩
  · exact hmax 0 ⟨le_refl 0, by norm_num⟩ (ne_of_lt hmem.1)
  · exact hmax 119 ⟨by norm_num, le_refl 119⟩ (ne_of_gt hmem.2)

/-- Witness for claim C8 at concrete epochs. -/
theorem loss_of_epoch_profile_witness :
    loss_of_epoch 0 = 10 ∧ loss_of_epoch 10 < loss_of_epoch 5 ∧
    3 < loss_of_epoch 7 ∧ loss_of_epoch 200 < 3.001 :=
  ⟨loss_of_epoch_profile.1, loss_of_epoch_profile.2.1 5 10 (by norm_num),
   loss_of_epoch_profile.2.2.1 7, loss_of_epoch_profile.2.2.2.2⟩

/-! Helper lemmas for the grid-search safety claim. -/

lemma logb_ten_lt_half {x : ℝ} (hx : 0 < x) (h : x ^ 2 < 10) :
    Real.logb 10 x < 1 / 2 := by
  rw [Real.logb, div_lt_iff₀ log_ten_pos]
  have h1 : Real.log (x ^ 2) < Real.log 10 := Real.log_lt_log (by positivity) h
  rw [Real.log_pow] at h1
  push_cast at h1
  linarith

lemma sq_logb_lt_quarter {x : ℝ} (h1 : 1 ≤ x) (h2 : x ^ 2 < 10) :
    (Real.logb 10 x) ^ 2 < 1 / 4 := by
  have h0 : 0 ≤ Real.logb 10 x := Real.logb_nonneg (by norm_num) h1
  have hh : Real.logb 10 x < 1 / 2 := logb_ten_lt_half (lt_of_lt_of_le one_pos h1) h2
  nlinarith

lemma accuracy_of_epoch_pos {epoch : ℝ} (h1 : 1 ≤ 3 - 0.025 * epoch)
    (h2 : (3 - 0.025 * epoch) ^ 2 < 10) : 0 < accuracy_of_epoch epoch := by
  unfold accuracy_of_epoch
  have := sq_logb_lt_quarter h1 h2
  linarith

lemma accuracy_of_lr_pos {lr : ℝ} (h1 : 1 ≤ 0.7 - 0.5 * Real.logb 10 lr)
    (h2 : (0.7 - 0.5 * Real.logb 10 lr) ^ 2 < 10) : 0 < accuracy_of_lr lr := by
  unfold accuracy_of_lr
  have := sq_logb_lt_quarter h1 h2
  linarith

lemma precision_of_threshold_pos (thr : ℝ) : 0 < precision_of_threshold thr := by
  unfold precision_of_threshold
  have hq : (0:ℝ) < 0.9 / (1 + 5000 * Real.exp (-20 * thr)) := by positivity
  linarith

lemma recall_of_threshold_pos (thr : ℝ) : 0 < recall_of_threshold thr := by
  unfold recall_of_threshold
  positivity

lemma checkedEvaluate_ok (p : TuningParameters) (w : MetricWeights)
    (hep : 0 < 3 - 0.025 * p.epoch)
    (hal : 0 < p.lr ∧ 0 < 0.7 - 0.5 * Real.logb 10 p.lr)
    (hll : 0 < p.lr ∧ 0 < 0.9 - Real.logb 10 p.lr)
    (hsum : w.k_precision * precision_of_threshold p.thr
          * (w.k_accuracy * accuracy_of_epoch p.epoch * accuracy_of_lr p.lr)
        + w.k_recall * recall_of_threshold p.thr
          * (w.k_accuracy * accuracy_of_epoch p.epoch * accuracy_of_lr p.lr) ≠ 0) :
    checkedEvaluate p w = .ok (evaluate p w) := by
  unfold checkedEvaluate checked_accuracy_of_epoch checked_accuracy_of_lr
    checked_loss_of_epoch checked_loss_of_lr checked_precision_of_threshold
    checked_recall_of_threshold checked_f1
  rw [if_pos hep]
  simp only [Except.bind]
  rw [if_pos hal]
  simp only [Except.bind]
  rw [if_pos hll]
  simp only [Except.bind]
  rw [if_neg hsum]
  simp only [Except.bind]
  rfl

/-- Claim C10: each parameter combination of the grid search space configured
in the pipeline lies strictly inside the domain of every metric function, and
the fully checked evaluation at such a combination reports no DomainError and
returns the real-valued metrics. -/
theorem grid_search_space_safe (thr epoch lr : ℝ)
    (ht : thr ∈ thrGrid) (he : epoch ∈ epochGrid) (hl : lr ∈ lrGrid) :
    (0 < 3 - 0.025 * epoch ∧ 0 < lr ∧ Real.logb 10 lr < 0.9 ∧
      0.5 * Real.logb 10 lr < 0.7) ∧
    checkedEvaluate ⟨thr, epoch, lr⟩ defaultWeights
      = .ok (evaluate ⟨thr, epoch, lr⟩ defaultWeights) := by
  have he' : epoch = 1 ∨ epoch = 20 := by simpa [epochGrid] using he
  have hl' : lr = 0.0001 ∨ lr = 0.001 := by simpa [lrGrid] using hl
  have hep : 0 < 3 - 0.025 * epoch := by
    rcases he' with h | h <;> rw [h] <;> norm_num
  have hlr0 : 0 < lr := by
    rcases hl' with h | h <;> rw [h] <;> norm_num
  have hlogb : Real.logb 10 lr = -4 ∨ Real.logb 10 lr = -3 := by
    rcases hl' with h | h
    · exact Or.inl (by rw [h, logb_ten_em4])
    · exact Or.inr (by rw [h, logb_ten_em3])
  have hll : Real.logb 10 lr < 0.9 := by
    rcases hlogb with h | h <;> rw [h] <;> norm_num
  have hal : 0.5 * Real.logb 10 lr < 0.7 := by
    rcases hlogb with h | h <;> rw [h] <;> norm_num
  have hae : 0 < accuracy_of_epoch epoch := by
    rcases he' with h | h <;> rw [h]
    · exact accuracy_of_epoch_pos (by norm_num) (by norm_num)
    · exact accuracy_of_epoch_pos (by norm_num) (by norm_num)
  have halp : 0 < accuracy_of_lr lr := by
    rcases hlogb with h | h
    · exact accuracy_of_lr_pos (by rw [h]; norm_num) (by rw [h]; norm_num)
    · exact accuracy_of_lr_pos (by rw [h]; norm_num) (by rw [h]; norm_num)
  have hpt := precision_of_threshold_pos thr
  have hrt := recall_of_threshold_pos thr
  have hacc : 0 < accuracy_of_epoch epoch * accuracy_of_lr lr := mul_pos hae halp
  refine ⟨⟨hep, hlr0, hll, hal⟩, ?_⟩
  apply checkedEvaluate_ok
  · exact hep
  · exact ⟨hlr0, by linarith⟩
  · exact ⟨hlr0, by linarith⟩
  · apply ne_of_gt
    have hgoal : (0:ℝ) < precision_of_threshold thr
        * (accuracy_of_epoch epoch * accuracy_of_lr lr)
        + recall_of_threshold thr
        * (accuracy_of_epoch epoch * accuracy_of_lr lr) :=
      add_pos (mul_pos hpt hacc) (mul_pos hrt hacc)
    simpa [defaultWeights] using hgoal

/-- Witness for claim C10 at the grid point thr = 0.05, epoch = 20,
lr = 0.001. -/
theorem grid_search_space_safe_witness :
    (0 < 3 - 0.025 * (20:ℝ) ∧ 0 < (0.001:ℝ) ∧ Real.logb 10 (0.001:ℝ) < 0.9 ∧
      0.5 * Real.logb 10 (0.001:ℝ) < 0.7) ∧
    checkedEvaluate ⟨0.05, 20, 0.001⟩ defaultWeights
      = .ok (evaluate ⟨0.05, 20, 0.001⟩ defaultWeights) :=
  grid_search_space_safe 0.05 20 0.001 (by simp [thrGrid]) (by simp [epochGrid])
    (by simp [lrGrid])

end Fictitious
